import Mathlib

/-!
Shallow embedding of salvo's connection-acceptance core:
the deferred TLS handshake stream (`crates/core/src/conn/tls_conn_stream.rs`)
and the plain TCP listener/acceptor (`crates/core/src/conn/tcp.rs`).

Asynchronous values are modelled explicitly: a poll either yields a value or
is pending; a handshake future is a countdown of pending polls followed by a
fixed outcome; the inner stream is an abstract state with an operation record.
-/

namespace Salvo

/-- Relevant `std::io::ErrorKind` values used by the embedded code. -/
inductive ErrorKind where
  | invalidData
  | addrInUse
  | permissionDenied
  | connectionAborted
  | other
  deriving DecidableEq, Repr

/-- `std::io::Error`, modelled as its kind plus its display message
(`e.to_string()` yields the message). -/
structure IoError where
  kind : ErrorKind
  message : String
  deriving DecidableEq, Repr

/-- `e.to_string()` on an `std::io::Error`. -/
def IoError.display (e : IoError) : String := e.message

/-- `std::task::Poll`. -/
inductive Poll (α : Type) where
  | ready (a : α)
  | pending
  deriving DecidableEq, Repr

/-- `http::Version` (the variants hyper exposes). -/
inductive Version where
  | http09
  | http10
  | http11
  | http2
  | http3
  deriving DecidableEq, Repr

/-- `http::uri::Scheme`, restricted to the two values the code constructs. -/
inductive Scheme where
  | http
  | https
  deriving DecidableEq, Repr

/-- The boxed handshake future `BoxFuture<'static, IoResult<S>>`: it reports
`Pending` for `pendings` more polls, then resolves to `outcome`. -/
structure HandshakeFut (S : Type) where
  pendings : Nat
  outcome : Except IoError S

/-- One `poll_unpin` step of the handshake future. -/
def HandshakeFut.poll {S : Type} (f : HandshakeFut S) :
    Poll (Except IoError S) × HandshakeFut S :=
  match f.pendings with
  | 0 => (.ready f.outcome, f)
  | n + 1 => (.pending, ⟨n, f.outcome⟩)

/-- `.await` on the handshake future: drives it through every pending poll to
its outcome. -/
def HandshakeFut.await {S : Type} (f : HandshakeFut S) : Except IoError S :=
  f.outcome

/-- `enum State<S>` of `tls_conn_stream.rs`. -/
inductive State (S : Type) where
  | handshaking (fut : HandshakeFut S)
  | ready (s : S)
  | error (e : IoError)

/-- `TlsConnStream<S>`: a handshake stream for tls. -/
structure TlsConnStream (S : Type) where
  state : State S

/-- `TlsConnStream::new`: wraps a pending handshake. -/
def TlsConnStream.new {S : Type} (handshake : HandshakeFut S) : TlsConnStream S :=
  ⟨.handshaking handshake⟩

/-- The operations the inner stream `S` supports: `AsyncRead`, `AsyncWrite`
and `HttpConnection`.  Reads report the bytes placed in the caller's buffer,
writes take the caller's buffer and report the count written. -/
structure StreamOps (S : Type) where
  pollRead : S → Poll (Except IoError (List Nat)) × S
  pollWrite : S → List Nat → Poll (Except IoError Nat) × S
  pollFlush : S → Poll (Except IoError Unit) × S
  pollShutdown : S → Poll (Except IoError Unit) × S
  httpVersion : S → Option Version × S

/-- `IoError::new(ErrorKind::InvalidData, e.to_string())` — the translated
error the stream surfaces once the handshake has failed. -/
def translatedError (e : IoError) : IoError :=
  ⟨.invalidData, e.display⟩

/-- `TlsConnStream::poll_read`.  The source loops: from `Handshaking`, a
successful future poll moves to `Ready` and the loop re-dispatches the read to
the inner stream in the same call; a failed poll moves to `Error` and the loop
returns the translated error in the same call. -/
def TlsConnStream.pollRead {S : Type} (ops : StreamOps S) (c : TlsConnStream S) :
    Poll (Except IoError (List Nat)) × TlsConnStream S :=
  match c.state with
  | .handshaking fut =>
    match fut.poll with
    | (.ready (.ok s), _) => ((ops.pollRead s).1, ⟨.ready (ops.pollRead s).2⟩)
    | (.ready (.error e), _) => (.ready (.error (translatedError e)), ⟨.error e⟩)
    | (.pending, fut') => (.pending, ⟨.handshaking fut'⟩)
  | .ready s => ((ops.pollRead s).1, ⟨.ready (ops.pollRead s).2⟩)
  | .error e => (.ready (.error (translatedError e)), ⟨.error e⟩)

/-- `TlsConnStream::poll_write` (same loop shape as `poll_read`). -/
def TlsConnStream.pollWrite {S : Type} (ops : StreamOps S) (c : TlsConnStream S)
    (buf : List Nat) : Poll (Except IoError Nat) × TlsConnStream S :=
  match c.state with
  | .handshaking fut =>
    match fut.poll with
    | (.ready (.ok s), _) =>
      ((ops.pollWrite s buf).1, ⟨.ready (ops.pollWrite s buf).2⟩)
    | (.ready (.error e), _) => (.ready (.error (translatedError e)), ⟨.error e⟩)
    | (.pending, fut') => (.pending, ⟨.handshaking fut'⟩)
  | .ready s => ((ops.pollWrite s buf).1, ⟨.ready (ops.pollWrite s buf).2⟩)
  | .error e => (.ready (.error (translatedError e)), ⟨.error e⟩)

/-- `TlsConnStream::poll_flush` (same loop shape as `poll_read`). -/
def TlsConnStream.pollFlush {S : Type} (ops : StreamOps S) (c : TlsConnStream S) :
    Poll (Except IoError Unit) × TlsConnStream S :=
  match c.state with
  | .handshaking fut =>
    match fut.poll with
    | (.ready (.ok s), _) => ((ops.pollFlush s).1, ⟨.ready (ops.pollFlush s).2⟩)
    | (.ready (.error e), _) => (.ready (.error (translatedError e)), ⟨.error e⟩)
    | (.pending, fut') => (.pending, ⟨.handshaking fut'⟩)
  | .ready s => ((ops.pollFlush s).1, ⟨.ready (ops.pollFlush s).2⟩)
  | .error e => (.ready (.error (translatedError e)), ⟨.error e⟩)

/-- `TlsConnStream::poll_shutdown` (same loop shape as `poll_read`). -/
def TlsConnStream.pollShutdown {S : Type} (ops : StreamOps S) (c : TlsConnStream S) :
    Poll (Except IoError Unit) × TlsConnStream S :=
  match c.state with
  | .handshaking fut =>
    match fut.poll with
    | (.ready (.ok s), _) =>
      ((ops.pollShutdown s).1, ⟨.ready (ops.pollShutdown s).2⟩)
    | (.ready (.error e), _) => (.ready (.error (translatedError e)), ⟨.error e⟩)
    | (.pending, fut') => (.pending, ⟨.handshaking fut'⟩)
  | .ready s => ((ops.pollShutdown s).1, ⟨.ready (ops.pollShutdown s).2⟩)
  | .error e => (.ready (.error (translatedError e)), ⟨.error e⟩)

/-- `TlsConnStream::http_version` (the `HttpConnection` impl): from
`Handshaking` it awaits the handshake; on success it stores `Ready` and awaits
the inner stream's `http_version`; on failure it stores `Error` and returns
`None`; from `Error` it returns `None` directly. -/
def TlsConnStream.httpVersion {S : Type} (ops : StreamOps S) (c : TlsConnStream S) :
    Option Version × TlsConnStream S :=
  match c.state with
  | .handshaking fut =>
    match fut.await with
    | .ok s => ((ops.httpVersion s).1, ⟨.ready (ops.httpVersion s).2⟩)
    | .error e => (none, ⟨.error e⟩)
  | .ready s => ((ops.httpVersion s).1, ⟨.ready (ops.httpVersion s).2⟩)
  | .error _ => (none, c)

/-- One caller-issued operation on the wrapper. -/
inductive Op where
  | read
  | write (buf : List Nat)
  | flush
  | shutdown
  | version
  deriving DecidableEq, Repr

/-- The state reached after one operation (outputs discarded). -/
def TlsConnStream.step {S : Type} (ops : StreamOps S) (c : TlsConnStream S) :
    Op → TlsConnStream S
  | .read => (c.pollRead ops).2
  | .write buf => (c.pollWrite ops buf).2
  | .flush => (c.pollFlush ops).2
  | .shutdown => (c.pollShutdown ops).2
  | .version => (c.httpVersion ops).2

/-- The state reached after a sequence of operations. -/
def TlsConnStream.run {S : Type} (ops : StreamOps S) (c : TlsConnStream S) :
    List Op → TlsConnStream S
  | [] => c
  | op :: l => TlsConnStream.run ops (c.step ops op) l

/-- The discriminant of `State`. -/
inductive Tag where
  | handshaking
  | ready
  | error
  deriving DecidableEq, Repr

/-- Tag of a state. -/
def State.tag {S : Type} : State S → Tag
  | .handshaking _ => .handshaking
  | .ready _ => .ready
  | .error _ => .error

/-- The transitions the spec permits: stay put, or leave `Handshaking`. -/
def transAllowed (a b : Tag) : Prop :=
  a = b ∨ a = .handshaking

/-! ## The TCP listener/acceptor (`crates/core/src/conn/tcp.rs`) -/

/-- A resolved socket address (`std::net::SocketAddr`): ip octets and port. -/
structure SocketAddr where
  host : List Nat
  port : Nat
  deriving DecidableEq, Repr

/-- `conn::Holding`, as `tcp.rs` constructs it. -/
structure Holding where
  local_addr : SocketAddr
  http_versions : List Version
  http_scheme : Scheme
  deriving DecidableEq, Repr

/-- An accepted raw TCP stream, identified abstractly. -/
abbrev TcpConn := Nat

/-- `conn::Accepted<TcpStream>` as `TcpAcceptor::accept` fills it in. -/
structure Accepted where
  conn : TcpConn
  local_addr : SocketAddr
  remote_addr : SocketAddr
  http_version : Version
  http_scheme : Scheme
  deriving DecidableEq, Repr

instance {ε α : Type} [DecidableEq ε] [DecidableEq α] : DecidableEq (Except ε α) :=
  fun x y =>
    match x, y with
    | .ok a, .ok b =>
      if h : a = b then isTrue (by rw [h])
      else isFalse (by intro hh; cases hh; exact h rfl)
    | .error a, .error b =>
      if h : a = b then isTrue (by rw [h])
      else isFalse (by intro hh; cases hh; exact h rfl)
    | .ok _, .error _ => isFalse (by intro hh; cases hh)
    | .error _, .ok _ => isFalse (by intro hh; cases hh)

/-- The external `tokio::net::TcpListener` resource: the result of its
`local_addr()` query, and the stream of outcomes its `accept()` primitive will
yield, one per call (`Ok(stream, peer_addr)` or an I/O error). -/
structure TokioTcpListener where
  localAddrResult : Except IoError SocketAddr
  incoming : List (Except IoError (TcpConn × SocketAddr))
  deriving DecidableEq, Repr

/-- `TcpAcceptor`. -/
structure TcpAcceptor where
  inner : TokioTcpListener
  holdings : List Holding
  deriving DecidableEq, Repr

/-- `impl TryFrom<TokioTcpListener> for TcpAcceptor`: query the resolved local
address (propagating its error), build the single Holding fixed at
HTTP/1.1 over insecure HTTP. -/
def TcpAcceptor.tryFrom (inner : TokioTcpListener) : Except IoError TcpAcceptor :=
  match inner.localAddrResult with
  | .error e => .error e
  | .ok a =>
    .ok { inner := inner
          holdings := [{ local_addr := a
                         http_versions := [Version.http11]
                         http_scheme := Scheme.http }] }

/-- Placeholder used only to express the source's `self.holdings[0]` index;
constructed acceptors always hold exactly one entry. -/
def dummyHolding : Holding :=
  { local_addr := ⟨[], 0⟩, http_versions := [], http_scheme := Scheme.http }

/-- `TcpAcceptor::accept`: delegate to the inner listener's accept primitive
(consuming its next outcome; suspend when none is available) and map a success
to an `Accepted` stamped with the Holding's local address, HTTP/1.1 and the
insecure scheme. -/
def TcpAcceptor.accept (a : TcpAcceptor) :
    Poll (Except IoError Accepted) × TcpAcceptor :=
  match a.inner.incoming with
  | [] => (.pending, a)
  | ev :: rest =>
    let a' : TcpAcceptor :=
      { a with inner := { a.inner with incoming := rest } }
    match ev with
    | .error e => (.ready (.error e), a')
    | .ok (conn, remote) =>
      (.ready (.ok
        { conn := conn
          local_addr := (a.holdings.headD dummyHolding).local_addr
          remote_addr := remote
          http_version := Version.http11
          http_scheme := Scheme.http }), a')

/-- `TcpListener<T>`: just the (unresolved) address specification. -/
structure TcpListener (A : Type) where
  local_addr : A

/-- `TcpListener::try_bind`: `TokioTcpListener::bind(self.local_addr).await?
.try_into()` — the external bind primitive is a parameter; its error is
propagated by `?` unchanged. -/
def TcpListener.try_bind {A : Type}
    (osBind : A → Except IoError TokioTcpListener) (l : TcpListener A) :
    Except IoError TcpAcceptor :=
  match osBind l.local_addr with
  | .error e => .error e
  | .ok inner => TcpAcceptor.tryFrom inner

/-- Result of a call that may panic instead of returning. -/
inductive Panics (α : Type) where
  | panicked
  | returned (a : α)
  deriving DecidableEq, Repr

/-- `Result::unwrap`. -/
def unwrapExcept {α : Type} : Except IoError α → Panics α
  | .error _ => .panicked
  | .ok a => .returned a

/-- `TcpListener::bind`: `self.try_bind().await.unwrap()`. -/
def TcpListener.bind {A : Type}
    (osBind : A → Except IoError TokioTcpListener) (l : TcpListener A) :
    Panics TcpAcceptor :=
  unwrapExcept (l.try_bind osBind)

/-! ## Concrete instances used to exercise the definitions -/

/-- A concrete inner stream for the handshake wrapper: a counter, with
deterministic read/write/flush/shutdown behaviour and a fixed negotiated
version. -/
def demoOps : StreamOps Nat where
  pollRead := fun s => (.ready (.ok [s]), s + 1)
  pollWrite := fun s buf => (.ready (.ok buf.length), s + buf.length)
  pollFlush := fun s => (.ready (.ok ()), s)
  pollShutdown := fun s => (.ready (.ok ()), s)
  httpVersion := fun s => (some Version.http2, s)

/-- A concrete handshake error. -/
def certErr : IoError := ⟨.other, "cert mismatch"⟩

/-- A concrete bound listener: resolved address 127.0.0.1:6878, one failed
accept followed by one successful accept from peer 127.0.0.1:5000. -/
def demoListener : TokioTcpListener :=
  { localAddrResult := .ok ⟨[127, 0, 0, 1], 6878⟩
    incoming := [.error ⟨.connectionAborted, "reset"⟩, .ok (7, ⟨[127, 0, 0, 1], 5000⟩)] }

/-! ## Helper lemmas -/

/-- From `Ready` the wrapper stays `Ready` under any operation sequence. -/
theorem run_from_ready {S : Type} (ops : StreamOps S) :
    ∀ (l : List Op) (s : S),
      (TlsConnStream.run ops ⟨State.ready s⟩ l).state.tag = Tag.ready
  | [], _ => rfl
  | op :: l, s => by
    cases op with
    | read => exact run_from_ready ops l ((ops.pollRead s).2)
    | write buf => exact run_from_ready ops l ((ops.pollWrite s buf).2)
    | flush => exact run_from_ready ops l ((ops.pollFlush s).2)
    | shutdown => exact run_from_ready ops l ((ops.pollShutdown s).2)
    | version => exact run_from_ready ops l ((ops.httpVersion s).2)

/-- From `Error e` the wrapper's state is exactly preserved under any
operation sequence. -/
theorem run_from_error {S : Type} (ops : StreamOps S) (e : IoError) :
    ∀ l : List Op, TlsConnStream.run ops ⟨State.error e⟩ l = ⟨State.error e⟩
  | [] => rfl
  | op :: l => by cases op <;> exact run_from_error ops e l

/-! ## Claims about the handshake stream -/

/-- Claim C1: the handshake state is monotone.  Every single operation makes
only a transition allowed out of the current tag (stay put, or leave
`Handshaking`), from `Ready` the tag stays `Ready` under any sequence of
operations, and from `Error e` the state — including the stored cause —
stays exactly `Error e` under any sequence of operations. -/
theorem tls_state_monotone {S : Type} (ops : StreamOps S) (c : TlsConnStream S) :
    (∀ op : Op, transAllowed c.state.tag ((c.step ops op).state.tag))
    ∧ (∀ l : List Op, c.state.tag = Tag.ready →
        (TlsConnStream.run ops c l).state.tag = Tag.ready)
    ∧ (∀ (l : List Op) (e : IoError), c.state = State.error e →
        TlsConnStream.run ops c l = ⟨State.error e⟩) := by
  obtain ⟨st⟩ := c
  cases st with
  | handshaking fut =>
    refine ⟨fun op => Or.inr rfl, fun l h => ?_, fun l e h => ?_⟩
    · exact absurd h (by simp [State.tag])
    · exact absurd h (by simp)
  | ready s =>
    refine ⟨fun op => Or.inl ?_, fun l _ => run_from_ready ops l s, fun l e h => ?_⟩
    · cases op <;> rfl
    · exact absurd h (by simp)
  | error e0 =>
    refine ⟨fun op => Or.inl ?_, fun l h => ?_, fun l e h => ?_⟩
    · cases op <;> rfl
    · exact absurd h (by simp [State.tag])
    · injection h with h1
      subst h1
      exact run_from_error ops e0 l

/-- Witness for C1 at a concrete stream: after read, flush and version-query
from `Ready`, the tag is still `Ready`. -/
theorem tls_state_monotone_witness :
    (TlsConnStream.run demoOps ⟨State.ready 0⟩
      [Op.read, Op.flush, Op.version]).state.tag = Tag.ready :=
  (tls_state_monotone demoOps ⟨State.ready 0⟩).2.1 [Op.read, Op.flush, Op.version] rfl

/-- Claim C2: from `Handshaking`, when the handshake future's poll completes
successfully (no pending polls remain, outcome `Ok s`), each of the four I/O
operations moves the state to `Ready` and dispatches that same operation —
with its payload — to the newly-ready inner stream within the same call. -/
theorem tls_handshake_completion_dispatches_same_call {S : Type}
    (ops : StreamOps S) (s : S) (buf : List Nat) :
    TlsConnStream.pollWrite ops ⟨State.handshaking ⟨0, .ok s⟩⟩ buf
      = ((ops.pollWrite s buf).1, ⟨State.ready (ops.pollWrite s buf).2⟩)
    ∧ TlsConnStream.pollRead ops ⟨State.handshaking ⟨0, .ok s⟩⟩
      = ((ops.pollRead s).1, ⟨State.ready (ops.pollRead s).2⟩)
    ∧ TlsConnStream.pollFlush ops ⟨State.handshaking ⟨0, .ok s⟩⟩
      = ((ops.pollFlush s).1, ⟨State.ready (ops.pollFlush s).2⟩)
    ∧ TlsConnStream.pollShutdown ops ⟨State.handshaking ⟨0, .ok s⟩⟩
      = ((ops.pollShutdown s).1, ⟨State.ready (ops.pollShutdown s).2⟩) :=
  ⟨rfl, rfl, rfl, rfl⟩

/-- Claim C3: once the handshake has failed with `e` — already in the very
call whose handshake poll produced `e` — every read, write, flush and
shutdown call returns `Ready(Err)` carrying the translated error built from
`e`'s message, identically on every call; and the stored cause survives any
sequence of further operations unchanged. -/
theorem tls_error_replay {S : Type} (ops : StreamOps S) (e : IoError)
    (buf : List Nat) :
    TlsConnStream.pollRead ops ⟨State.handshaking ⟨0, .error e⟩⟩
      = (.ready (.error ⟨ErrorKind.invalidData, e.message⟩), ⟨State.error e⟩)
    ∧ TlsConnStream.pollWrite ops ⟨State.handshaking ⟨0, .error e⟩⟩ buf
      = (.ready (.error ⟨ErrorKind.invalidData, e.message⟩), ⟨State.error e⟩)
    ∧ TlsConnStream.pollFlush ops ⟨State.handshaking ⟨0, .error e⟩⟩
      = (.ready (.error ⟨ErrorKind.invalidData, e.message⟩), ⟨State.error e⟩)
    ∧ TlsConnStream.pollShutdown ops ⟨State.handshaking ⟨0, .error e⟩⟩
      = (.ready (.error ⟨ErrorKind.invalidData, e.message⟩), ⟨State.error e⟩)
    ∧ TlsConnStream.pollRead ops ⟨State.error e⟩
      = (.ready (.error ⟨ErrorKind.invalidData, e.message⟩), ⟨State.error e⟩)
    ∧ TlsConnStream.pollWrite ops ⟨State.error e⟩ buf
      = (.ready (.error ⟨ErrorKind.invalidData, e.message⟩), ⟨State.error e⟩)
    ∧ TlsConnStream.pollFlush ops ⟨State.error e⟩
      = (.ready (.error ⟨ErrorKind.invalidData, e.message⟩), ⟨State.error e⟩)
    ∧ TlsConnStream.pollShutdown ops ⟨State.error e⟩
      = (.ready (.error ⟨ErrorKind.invalidData, e.message⟩), ⟨State.error e⟩)
    ∧ ∀ l : List Op, TlsConnStream.run ops ⟨State.error e⟩ l = ⟨State.error e⟩ :=
  ⟨rfl, rfl, rfl, rfl, rfl, rfl, rfl, rfl, fun l => run_from_error ops e l⟩

/-- Claim C5: when the handshake fails (or the state is already `Error`),
`http_version` returns `none` instead of raising, while read, write, flush
and shutdown on the same failed connection do surface an error. -/
theorem tls_version_swallows_failure {S : Type} (ops : StreamOps S)
    (e : IoError) (n : Nat) (buf : List Nat) :
    TlsConnStream.httpVersion ops ⟨State.handshaking ⟨n, .error e⟩⟩
      = (none, ⟨State.error e⟩)
    ∧ TlsConnStream.httpVersion ops ⟨State.error e⟩ = (none, ⟨State.error e⟩)
    ∧ (TlsConnStream.pollRead ops ⟨State.error e⟩).1
      = .ready (.error ⟨ErrorKind.invalidData, e.message⟩)
    ∧ (TlsConnStream.pollWrite ops ⟨State.error e⟩ buf).1
      = .ready (.error ⟨ErrorKind.invalidData, e.message⟩)
    ∧ (TlsConnStream.pollFlush ops ⟨State.error e⟩).1
      = .ready (.error ⟨ErrorKind.invalidData, e.message⟩)
    ∧ (TlsConnStream.pollShutdown ops ⟨State.error e⟩).1
      = .ready (.error ⟨ErrorKind.invalidData, e.message⟩) :=
  ⟨rfl, rfl, rfl, rfl, rfl, rfl⟩

/-- Claim C6: calling `http_version` while still `Handshaking` awaits the
handshake through all its pending polls; on success the state becomes `Ready`
and the call returns exactly the inner stream's negotiated `http_version`
value. -/
theorem tls_version_after_success {S : Type} (ops : StreamOps S) (n : Nat)
    (s : S) :
    TlsConnStream.httpVersion ops ⟨State.handshaking ⟨n, .ok s⟩⟩
      = ((ops.httpVersion s).1, ⟨State.ready (ops.httpVersion s).2⟩) :=
  rfl

/-! ## Claims about the TCP listener/acceptor -/

/-- A concrete Holding as construction produces it. -/
def demoHolding : Holding :=
  { local_addr := ⟨[127, 0, 0, 1], 6878⟩
    http_versions := [Version.http11]
    http_scheme := Scheme.http }

/-- A concrete acceptor over `demoListener`. -/
def demoAcceptor : TcpAcceptor :=
  { inner := demoListener, holdings := [demoHolding] }

/-- Claim C4, counterexample: `try_bind` does not re-wrap bind failures under
a single bind-failed kind — it propagates the transport's I/O error
unchanged, so two different underlying failures surface with two different
kinds. -/
theorem tcp_try_bind_no_rewrap_cex :
    TcpListener.try_bind (fun _ => .error ⟨ErrorKind.addrInUse, "address in use"⟩)
        (TcpListener.mk (0 : Nat))
      = .error ⟨ErrorKind.addrInUse, "address in use"⟩
    ∧ TcpListener.try_bind (fun _ => .error ⟨ErrorKind.permissionDenied, "permission denied"⟩)
        (TcpListener.mk (0 : Nat))
      = .error ⟨ErrorKind.permissionDenied, "permission denied"⟩
    ∧ ErrorKind.addrInUse ≠ ErrorKind.permissionDenied :=
  ⟨rfl, rfl, by decide⟩

/-- Claim C4, amended: on any failing bind, `try_bind` returns the underlying
I/O error unchanged (whether the bind primitive itself fails or the local
address query of the bound socket fails); it never panics (it always returns
an `Except` value) and consults the bind primitive exactly once, with no
internal retry. -/
theorem tcp_try_bind_propagates_underlying {A : Type}
    (osBind : A → Except IoError TokioTcpListener) (l : TcpListener A) :
    (∀ e : IoError, osBind l.local_addr = .error e → l.try_bind osBind = .error e)
    ∧ (∀ (inner : TokioTcpListener) (e : IoError),
        osBind l.local_addr = .ok inner → inner.localAddrResult = .error e →
        l.try_bind osBind = .error e) := by
  constructor
  · intro e h
    unfold TcpListener.try_bind
    rw [h]
  · intro inner e h h'
    unfold TcpListener.try_bind
    rw [h]
    show TcpAcceptor.tryFrom inner = Except.error e
    simp [TcpAcceptor.tryFrom, h']

/-- Witness for the amended C4 at a concrete failing bind. -/
theorem tcp_try_bind_propagates_underlying_witness :
    TcpListener.try_bind (fun _ => .error ⟨ErrorKind.addrInUse, "busy"⟩)
        (TcpListener.mk (0 : Nat))
      = .error ⟨ErrorKind.addrInUse, "busy"⟩ :=
  (tcp_try_bind_propagates_underlying
      (fun _ => .error ⟨ErrorKind.addrInUse, "busy"⟩)
      (TcpListener.mk (0 : Nat))).1 ⟨ErrorKind.addrInUse, "busy"⟩ rfl

/-- Claim C7: a successfully constructed acceptor carries exactly one
Holding, built at construction from the resolved local address, with versions
exactly HTTP/1.1 and the insecure scheme; and `accept` — the only operation
on an acceptor — never changes the holdings list. -/
theorem tcp_holdings_accurate (inner : TokioTcpListener) (a : SocketAddr)
    (acc : TcpAcceptor) :
    (inner.localAddrResult = .ok a →
      TcpAcceptor.tryFrom inner =
        .ok { inner := inner
              holdings := [{ local_addr := a
                             http_versions := [Version.http11]
                             http_scheme := Scheme.http }] })
    ∧ (TcpAcceptor.accept acc).2.holdings = acc.holdings := by
  constructor
  · intro h
    unfold TcpAcceptor.tryFrom
    rw [h]
  · obtain ⟨⟨la, inc⟩, hold⟩ := acc
    cases inc with
    | nil => rfl
    | cons ev rest =>
      cases ev with
      | error e => rfl
      | ok p => obtain ⟨conn, remote⟩ := p; rfl

/-- Witness for C7: constructing from `demoListener` yields exactly the
expected single Holding, and an accept call leaves the holdings unchanged. -/
theorem tcp_holdings_accurate_witness :
    TcpAcceptor.tryFrom demoListener
      = .ok { inner := demoListener, holdings := [demoHolding] }
    ∧ (TcpAcceptor.accept demoAcceptor).2.holdings = demoAcceptor.holdings :=
  ⟨(tcp_holdings_accurate demoListener ⟨[127, 0, 0, 1], 6878⟩ demoAcceptor).1 rfl,
   (tcp_holdings_accurate demoListener ⟨[127, 0, 0, 1], 6878⟩ demoAcceptor).2⟩

/-- Claim C8: on an acceptor carrying its construction-time Holding (one
entry, insecure HTTP, versions exactly HTTP/1.1), a successful `accept`
returns an `Accepted` stamped with the Holding's scheme and local address,
an HTTP version that is the Holding's version HTTP/1.1, and the peer address
reported by the transport's accept primitive. -/
theorem tcp_accept_stamps_holding (acc : TcpAcceptor) (h : Holding)
    (conn : TcpConn) (remote : SocketAddr)
    (rest : List (Except IoError (TcpConn × SocketAddr)))
    (hh : acc.holdings = [h])
    (hs : h.http_scheme = Scheme.http)
    (hv : h.http_versions = [Version.http11])
    (hin : acc.inner.incoming = .ok (conn, remote) :: rest) :
    (TcpAcceptor.accept acc).1 =
      .ready (.ok { conn := conn
                    local_addr := h.local_addr
                    remote_addr := remote
                    http_version := Version.http11
                    http_scheme := h.http_scheme })
    ∧ Version.http11 ∈ h.http_versions := by
  obtain ⟨⟨la, inc⟩, hold⟩ := acc
  simp only at hh hin
  subst hh hin
  constructor
  · rw [hs]
    rfl
  · rw [hv]
    exact List.mem_singleton.mpr rfl

/-- Witness for C8 at a concrete acceptor whose next accept outcome is a
connection from peer 127.0.0.1:5000. -/
theorem tcp_accept_stamps_holding_witness :
    (TcpAcceptor.accept
        { inner := { localAddrResult := .ok ⟨[127, 0, 0, 1], 6878⟩
                     incoming := [.ok (7, ⟨[127, 0, 0, 1], 5000⟩)] }
          holdings := [demoHolding] }).1 =
      .ready (.ok { conn := 7
                    local_addr := demoHolding.local_addr
                    remote_addr := ⟨[127, 0, 0, 1], 5000⟩
                    http_version := Version.http11
                    http_scheme := demoHolding.http_scheme })
    ∧ Version.http11 ∈ demoHolding.http_versions :=
  tcp_accept_stamps_holding
    { inner := { localAddrResult := .ok ⟨[127, 0, 0, 1], 6878⟩
                 incoming := [.ok (7, ⟨[127, 0, 0, 1], 5000⟩)] }
      holdings := [demoHolding] }
    demoHolding 7 ⟨[127, 0, 0, 1], 5000⟩ [] rfl rfl rfl rfl

/-- Claim C9: an `accept` call whose outcome is an error returns that error
to the caller and leaves the acceptor's holdings and underlying listener
identity unchanged; if the transport's next outcome is a connection, the very
next `accept` call succeeds. -/
theorem tcp_accept_error_keeps_acceptor (acc : TcpAcceptor) (e : IoError)
    (rest : List (Except IoError (TcpConn × SocketAddr)))
    (hin : acc.inner.incoming = .error e :: rest) :
    (TcpAcceptor.accept acc).1 = .ready (.error e)
    ∧ (TcpAcceptor.accept acc).2.holdings = acc.holdings
    ∧ (TcpAcceptor.accept acc).2.inner.localAddrResult = acc.inner.localAddrResult
    ∧ (TcpAcceptor.accept acc).2.inner.incoming = rest
    ∧ ∀ (conn : TcpConn) (remote : SocketAddr)
        (rest' : List (Except IoError (TcpConn × SocketAddr))),
        rest = .ok (conn, remote) :: rest' →
        ∃ acd : Accepted,
          (TcpAcceptor.accept (TcpAcceptor.accept acc).2).1 = .ready (.ok acd) := by
  obtain ⟨⟨la, inc⟩, hold⟩ := acc
  simp only at hin
  subst hin
  refine ⟨rfl, rfl, rfl, rfl, ?_⟩
  intro conn remote rest' hr
  subst hr
  exact ⟨_, rfl⟩

/-- Witness for C9: on `demoAcceptor` the first accept fails with the
connection-reset error and the second succeeds. -/
theorem tcp_accept_error_keeps_acceptor_witness :
    (TcpAcceptor.accept demoAcceptor).1
      = .ready (.error ⟨ErrorKind.connectionAborted, "reset"⟩)
    ∧ ∃ acd : Accepted,
        (TcpAcceptor.accept (TcpAcceptor.accept demoAcceptor).2).1
          = .ready (.ok acd) :=
  ⟨(tcp_accept_error_keeps_acceptor demoAcceptor
      ⟨ErrorKind.connectionAborted, "reset"⟩
      [.ok (7, ⟨[127, 0, 0, 1], 5000⟩)] rfl).1,
   (tcp_accept_error_keeps_acceptor demoAcceptor
      ⟨ErrorKind.connectionAborted, "reset"⟩
      [.ok (7, ⟨[127, 0, 0, 1], 5000⟩)] rfl).2.2.2.2
      7 ⟨[127, 0, 0, 1], 5000⟩ [] rfl⟩

/-- Claim C10: `bind` is exactly `try_bind` followed by `unwrap`: whenever
`try_bind` returns a bind error, `bind` panics; whenever `try_bind` succeeds,
`bind` returns the very same acceptor. -/
theorem tcp_bind_refines_try_bind {A : Type}
    (osBind : A → Except IoError TokioTcpListener) (l : TcpListener A) :
    (∀ e : IoError, l.try_bind osBind = .error e →
      l.bind osBind = Panics.panicked)
    ∧ (∀ acc : TcpAcceptor, l.try_bind osBind = .ok acc →
      l.bind osBind = Panics.returned acc) := by
  constructor
  · intro e h
    unfold TcpListener.bind
    rw [h]
    rfl
  · intro acc h
    unfold TcpListener.bind
    rw [h]
    rfl

/-- Witness for C10: a concrete failing bind panics, a concrete succeeding
bind returns the constructed acceptor. -/
theorem tcp_bind_refines_try_bind_witness :
    TcpListener.bind (fun _ => .error ⟨ErrorKind.addrInUse, "busy"⟩)
        (TcpListener.mk (0 : Nat)) = Panics.panicked
    ∧ TcpListener.bind (fun _ => .ok demoListener)
        (TcpListener.mk (0 : Nat))
      = Panics.returned { inner := demoListener, holdings := [demoHolding] } :=
  ⟨(tcp_bind_refines_try_bind (fun _ => .error ⟨ErrorKind.addrInUse, "busy"⟩)
      (TcpListener.mk (0 : Nat))).1 ⟨ErrorKind.addrInUse, "busy"⟩ rfl,
   (tcp_bind_refines_try_bind (fun _ => .ok demoListener)
      (TcpListener.mk (0 : Nat))).2
      { inner := demoListener, holdings := [demoHolding] } rfl⟩

end Salvo
